import Mathlib

/-!
Shallow embedding of the Flown itinerary-search core
(src/backend/app/services and src/backend/app/utils), together with proofs
of the spec claims about it.

Modelling conventions, used uniformly below:
* Python `str.upper()` is modelled by `strUpper` (character-wise ASCII
  uppercasing, exactly what `.upper()` does on airport-code strings).
* Python `datetime.date` values are modelled as `Int` day numbers;
  `timedelta(days = n)` becomes `+ n`.  A `date` object is always truthy in
  Python, so a modelled date never fails a truthiness test.
* Prices are Python ints, modelled as `Int`.
* The nested dict `graph[from][to] -> list of segments` of `FlightGraph` is
  represented flatly as the insertion-ordered list of stored segments; the
  per-pair lists of the dict are recovered by filtering on the uppercased
  codes, which preserves the append order of `add_segment`.
* `Optional[X]` is `Option X`; a fallible operation returns `Option`.
* Logging statements are dropped (logging is outside the verified core).
-/

/-- Model of Python `str.upper()` (ASCII character-wise uppercasing). -/
def strUpper (s : String) : String := ⟨s.data.map Char.toUpper⟩

/-- FlightSegment (src/backend/app/models/flight_segment.py): one priced,
dated, directed leg. -/
structure FlightSegment where
  from_airport : String
  to_airport : String
  price : Int
  provider : String
  date : Int
  flight_number : Option String := none
  departure_time : Option String := none
  arrival_time : Option String := none
deriving DecidableEq, Repr

/-- Itinerary (src/backend/app/models/itinerary.py). -/
structure Itinerary where
  segments : List FlightSegment
  total_cost : Int
deriving DecidableEq, Repr

/-- FlightGraph (src/backend/app/services/flight_graph.py): stored segments
plus the entry/exit candidate airport lists. -/
structure FlightGraph where
  segments : List FlightSegment
  entry_airports : List String
  exit_airports : List String
deriving DecidableEq, Repr

/-- Default entry/exit candidates (FlightGraph.DEFAULT_ENTRY_AIRPORTS and
DEFAULT_EXIT_AIRPORTS). -/
def DEFAULT_ENTRY_AIRPORTS : List String := ["NRT", "KIX", "FUK"]

/-- FlightGraph.__init__ with no explicit candidates. -/
def FlightGraph.init : FlightGraph :=
  { segments := []
    entry_airports := DEFAULT_ENTRY_AIRPORTS
    exit_airports := DEFAULT_ENTRY_AIRPORTS }

/-- FlightGraph.add_segment: normalizes both codes to uppercase for keying,
rejects empty codes, appends the original segment to the edge list. -/
def FlightGraph.add_segment (g : FlightGraph) (segment : FlightSegment) : FlightGraph :=
  let f := strUpper segment.from_airport
  let t := strUpper segment.to_airport
  if f = "" ∨ t = "" then g
  else { g with segments := g.segments ++ [segment] }

/-- FlightGraph.add_segments. -/
def FlightGraph.add_segments (g : FlightGraph) (segments : List FlightSegment) : FlightGraph :=
  segments.foldl FlightGraph.add_segment g

/-- FlightGraph.clear: resets the stored segments (the entry/exit candidate
lists are untouched, as in the source). -/
def FlightGraph.clear (g : FlightGraph) : FlightGraph :=
  { g with segments := [] }

/-- FlightGraph.has_edge. -/
def FlightGraph.has_edge (g : FlightGraph) (from_airport to_airport : String) : Bool :=
  g.segments.any fun s =>
    strUpper s.from_airport == strUpper from_airport &&
    strUpper s.to_airport == strUpper to_airport

/-- FlightGraph.get_segments: the segments stored between the two (uppercased)
airports, optionally filtered to one date. -/
def FlightGraph.get_segments (g : FlightGraph) (from_airport to_airport : String)
    (date_filter : Option Int) : List FlightSegment :=
  let f := strUpper from_airport
  let t := strUpper to_airport
  let segments := g.segments.filter fun s =>
    strUpper s.from_airport == f && strUpper s.to_airport == t
  match date_filter with
  | none => segments
  | some d => segments.filter fun s => s.date == d

/-- Model of Python `min(segments, key = lambda s: s.price)`: the first
segment of minimum price (the fold keeps the earlier element on ties, as
Python min does). -/
def minByPrice : List FlightSegment → Option FlightSegment
  | [] => none
  | s :: rest => some (rest.foldl (fun acc x => if x.price < acc.price then x else acc) s)

/-- FlightGraph.get_cheapest_segment. -/
def FlightGraph.get_cheapest_segment (g : FlightGraph) (from_airport to_airport : String)
    (date_filter : Option Int) : Option FlightSegment :=
  minByPrice (g.get_segments from_airport to_airport date_filter)

/-- FlightGraph.get_cheapest_segment_strict: delegates to
get_cheapest_segment with the date as filter (the source only adds a debug
log on a hit). -/
def FlightGraph.get_cheapest_segment_strict (g : FlightGraph)
    (from_airport to_airport : String) (flight_date : Int) : Option FlightSegment :=
  g.get_cheapest_segment from_airport to_airport (some flight_date)

/-- FlightGraph.get_all_edges: the set of (from, to) pairs with at least one
stored segment, as a deduplicated list of uppercased pairs. -/
def FlightGraph.get_all_edges (g : FlightGraph) : List (String × String) :=
  (g.segments.map fun s => (strUpper s.from_airport, strUpper s.to_airport)).dedup

/-- Insertion of a string into a sorted list (helper for the model of Python
`sorted`). -/
def insertSorted (a : String) : List String → List String
  | [] => [a]
  | b :: l => if a ≤ b then a :: b :: l else b :: insertSorted a l

/-- Model of Python `sorted` on a set of strings (insertion sort; the claims
below only depend on its membership behaviour). -/
def sortStrings (l : List String) : List String := l.foldr insertSorted []

/-- FlightGraph.refresh_entry_exit_from_graph: recompute the entry/exit
candidate lists from the edges actually present, keeping the previous list
when no qualifying edge exists.  The Python sets `entries` / `exits` are
modelled as deduplicated lists. -/
def FlightGraph.refresh_entry_exit_from_graph (g : FlightGraph)
    (korean_airports japanese_airports : List String) : FlightGraph :=
  let entries := ((g.get_all_edges.filter fun e =>
    e.1 ∈ korean_airports ∧ e.2 ∈ japanese_airports).map Prod.snd).dedup
  let exits := ((g.get_all_edges.filter fun e =>
    e.1 ∈ japanese_airports ∧ e.2 ∈ korean_airports).map Prod.fst).dedup
  { g with
    entry_airports := if entries.isEmpty then g.entry_airports else sortStrings entries
    exit_airports := if exits.isEmpty then g.exit_airports else sortStrings exits }

/-- Consecutive pairs of a list (the `template[i], template[i+1]` walk used
throughout the source). -/
def consecutivePairs : List String → List (String × String)
  | a :: b :: rest => (a, b) :: consecutivePairs (b :: rest)
  | _ => []

/-- RouteTemplateEngine.generate_templates
(src/backend/app/services/route_templates.py): shapes A, B, C and
optionally D over the current entry/exit candidates. -/
def generate_templates (g : FlightGraph) (departure destination : String)
    (allow_two_entries : Bool) : List (List String) :=
  let dep := strUpper departure
  let dest := strUpper destination
  let entries := g.entry_airports.map strUpper
  let exits := g.exit_airports.map strUpper
  let tA : List (List String) := [[dep, dest, dep]]
  let tB := entries.filterMap fun e =>
    if e == dest then none else some [dep, e, dest, dep]
  let tC := entries.flatMap fun e =>
    if e == dest then []
    else exits.filterMap fun x =>
      if e == x then none else some [dep, e, dest, x, dep]
  let tD :=
    if allow_two_entries && decide (entries.length ≥ 2) then
      entries.flatMap fun e1 =>
        if e1 == dest then []
        else entries.flatMap fun e2 =>
          if e2 == dest || e2 == e1 then []
          else exits.map fun x => [dep, e1, e2, dest, x, dep]
    else []
  tA ++ tB ++ tC ++ tD

/-- RouteTemplateEngine.validate_template: round-trip shape, no repeated
interior airport, at most 4 interior stops, destination (when supplied and
non-empty, per Python truthiness) among the interior stops.  Python
`len(set(middle))` is `middle.dedup.length`. -/
def validate_template (template : List String) (destination : Option String) : Bool :=
  if template.length < 3 then false
  else if strUpper (template.headD "") ≠ strUpper (template.getLastD "") then false
  else
    let middle_airports := (template.drop 1).dropLast.map strUpper
    if middle_airports.length ≠ middle_airports.dedup.length then false
    else if middle_airports.length > 4 then false
    else
      match destination with
      | none => true
      | some d => if d = "" then true else decide (strUpper d ∈ middle_airports)

/-- RouteTemplateEngine.expand_template: keeps the template iff every
consecutive pair has a graph edge (or is marked available in the supplied
map, Python dict modelled as a first-match association list). -/
def expand_template (g : FlightGraph) (template : List String)
    (available_segments : Option (List ((String × String) × Bool))) : List (List String) :=
  if template.length < 2 then []
  else
    let avail := match available_segments with
      | some m => m
      | none => (consecutivePairs template).map fun (p : String × String) =>
          ((strUpper p.1, strUpper p.2), g.has_edge p.1 p.2)
    if (consecutivePairs template).all fun (p : String × String) =>
        ((avail.lookup (strUpper p.1, strUpper p.2)).getD false)
    then [template] else []

/-- PriceAggregator.calculate_total_cost. -/
def calculate_total_cost (segments : List FlightSegment) : Int :=
  (segments.map FlightSegment.price).sum

/-- Leg-by-leg walk of PriceAggregator.build_itinerary_from_template: resolve
each consecutive pair at the current cursor date (strict: exact date only;
relaxed: exact date, else the all-dates cheapest), clone the resolved
segment with its date pinned to the cursor, then advance the cursor (jump to
the return date after arriving at the final destination, else hold on
same-day transfer, else advance one day). -/
def buildSegments (g : FlightGraph) (final_destination : String) (return_date : Int)
    (allow_same_day_transfer strict_date_match : Bool) :
    List (String × String) → Int → Option (List FlightSegment)
  | [], _ => some []
  | p :: rest, current_date =>
    let from_airport := strUpper p.1
    let to_airport := strUpper p.2
    let seg? :=
      if strict_date_match then
        g.get_cheapest_segment_strict from_airport to_airport current_date
      else
        match g.get_cheapest_segment from_airport to_airport (some current_date) with
        | some s => some s
        | none => g.get_cheapest_segment from_airport to_airport none
    match seg? with
    | none => none
    | some segment =>
      let segment_copy := { segment with date := current_date }
      let next_date :=
        if to_airport == final_destination then return_date
        else if allow_same_day_transfer then current_date
        else current_date + 1
      match buildSegments g final_destination return_date
          allow_same_day_transfer strict_date_match rest next_date with
      | none => none
      | some tail => some (segment_copy :: tail)

/-- PriceAggregator.build_itinerary_from_template. -/
def build_itinerary_from_template (g : FlightGraph) (template : List String)
    (departure_date return_date : Int) (destination : String)
    (allow_same_day_transfer strict_date_match : Bool) : Option Itinerary :=
  if template.length < 3 then none
  else
    match buildSegments g (strUpper destination) return_date
        allow_same_day_transfer strict_date_match
        (consecutivePairs template) departure_date with
    | none => none
    | some segments => some { segments := segments, total_cost := calculate_total_cost segments }

/-- PriceAggregator.find_cheapest_itinerary: Python
`min(itineraries, key = lambda it: it.total_cost)`, first minimum. -/
def find_cheapest_itinerary : List Itinerary → Option Itinerary
  | [] => none
  | it :: rest => some (rest.foldl (fun acc x => if x.total_cost < acc.total_cost then x else acc) it)

/-- PriceAggregator.compare_with_direct: Python `if not direct_cost` is true
for None and for 0. -/
def compare_with_direct (itinerary : Itinerary) (direct_cost : Option Int) : Bool :=
  match direct_cost with
  | none => true
  | some c => if c = 0 then true else decide (itinerary.total_cost < c)

/-- Serialized (JSON) form of a FlightSegment as stored in the cache: the
date field is in its string form (Python `model_dump` plus the explicit
date formatting in the fetch helpers). -/
structure SerializedSegment where
  from_airport : String
  to_airport : String
  price : Int
  provider : String
  date : String
  flight_number : Option String := none
  departure_time : Option String := none
  arrival_time : Option String := none
deriving DecidableEq, Repr

/-- DateUtils.format_date_for_api: dates are modelled as day numbers, so the
canonical string form is their decimal representation. -/
def format_date_for_api (d : Int) : String := toString d

/-- DateUtils.parse_api_date, made fallible (the callers catch the parse
exception and treat it as a cache miss). -/
def parse_api_date (s : String) : Option Int := s.toInt?

/-- Serialization performed before a cache store: `model_dump` with the date
formatted to its string form. -/
def serialize_segment (s : FlightSegment) : SerializedSegment :=
  { from_airport := s.from_airport
    to_airport := s.to_airport
    price := s.price
    provider := s.provider
    date := format_date_for_api s.date
    flight_number := s.flight_number
    departure_time := s.departure_time
    arrival_time := s.arrival_time }

/-- Deserialization performed on a cache hit: parse the stored date string
back; a parse failure makes the whole deserialization fail (the caller then
falls through to a live provider call). -/
def deserialize_segment (c : SerializedSegment) : Option FlightSegment :=
  match parse_api_date c.date with
  | none => none
  | some d => some
    { from_airport := c.from_airport
      to_airport := c.to_airport
      price := c.price
      provider := c.provider
      date := d
      flight_number := c.flight_number
      departure_time := c.departure_time
      arrival_time := c.arrival_time }

/-- CacheManager (src/backend/app/utils/cache.py) modelled as an optional
association store: `none` is an absent Redis (every get misses, every set is
a no-op), `some entries` maps keys to a serialized value and the TTL it was
stored with (first match wins, prepend overwrites). -/
def CacheStore : Type := Option (List (String × SerializedSegment × Nat))

/-- CacheManager.get. -/
def cache_get (c : CacheStore) (key : String) : Option SerializedSegment :=
  match c with
  | none => none
  | some entries => (entries.lookup key).map Prod.fst

/-- CacheManager.set with a TTL. -/
def cache_set (c : CacheStore) (key : String) (v : SerializedSegment) (ttl : Nat) : CacheStore :=
  match c with
  | none => none
  | some entries => some ((key, v, ttl) :: entries)

/-- CacheManager.generate_key: prefix plus the kwargs sorted by name
(`date` < `from_airport` < `to_airport`). -/
def generate_key (providerName from_airport to_airport dateStr : String) : String :=
  providerName ++ ":date:" ++ dateStr ++ ":from_airport:" ++ from_airport
    ++ ":to_airport:" ++ to_airport

/-- Shared body of SearchEngine._fetch_international_segment and
_fetch_domestic_segment (the two sources are textually identical up to
provider name and TTL): cache lookup first; a hit deserializes, and a
deserialization failure falls through to the provider; on a provider
success the segment is serialized and stored with the given TTL.  The
provider is an oracle function standing for the external fare provider. -/
def fetch_segment_cached (providerName : String)
    (provider : String → String → Int → Option FlightSegment) (ttl : Nat)
    (c : CacheStore) (from_airport to_airport : String) (departure_date : Int) :
    Option FlightSegment × CacheStore :=
  let f := strUpper from_airport
  let t := strUpper to_airport
  let cache_key := generate_key providerName f t (format_date_for_api departure_date)
  let fromProvider : Option FlightSegment × CacheStore :=
    match provider f t departure_date with
    | none => (none, c)
    | some segment => (some segment, cache_set c cache_key (serialize_segment segment) ttl)
  match cache_get c cache_key with
  | some cached =>
    match deserialize_segment cached with
    | some segment => (some segment, c)
    | none => fromProvider
  | none => fromProvider

/-- SearchEngine._fetch_international_segment: Amadeus provider,
`ttl = 10800`. -/
def fetch_international_segment (amadeus : String → String → Int → Option FlightSegment)
    (c : CacheStore) (from_airport to_airport : String) (departure_date : Int) :
    Option FlightSegment × CacheStore :=
  fetch_segment_cached "amadeus" amadeus 10800 c from_airport to_airport departure_date

/-- SearchEngine._fetch_domestic_segment: AirLabs provider, `ttl = 21600`. -/
def fetch_domestic_segment (airlabs : String → String → Int → Option FlightSegment)
    (c : CacheStore) (from_airport to_airport : String) (departure_date : Int) :
    Option FlightSegment × CacheStore :=
  fetch_segment_cached "airlabs" airlabs 21600 c from_airport to_airport departure_date

/-- DateUtils.get_date_range: all days from start to end inclusive. -/
def get_date_range (start_date end_date : Int) : List Int :=
  (List.range (end_date - start_date + 1).toNat).map fun i => start_date + i

/-- DateUtils.calculate_return_date. -/
def calculate_return_date (departure_date : Int) (trip_nights : Int) : Int :=
  departure_date + trip_nights

/-- DateUtils.get_departure_return_pairs: a pair per departure day in the
window whose return date is at most 30 days past the window end. -/
def get_departure_return_pairs (start_date end_date : Int) (trip_nights : Int) :
    List (Int × Int) :=
  (get_date_range start_date end_date).filterMap fun current =>
    let return_date := calculate_return_date current trip_nights
    if return_date ≤ end_date + 30 then some (current, return_date) else none

/-- SearchRequest (src/backend/app/models/itinerary.py). -/
structure SearchRequest where
  departure : String
  destination : String
  start_date : Int
  end_date : Int
  trip_nights : Option Int := none
deriving DecidableEq, Repr

/-- SearchResponse (src/backend/app/models/itinerary.py). -/
structure SearchResponse where
  total_cost : Int
  segments : List FlightSegment
  route_pattern : String
  cheaper_than_direct : Bool
  direct_cost : Option Int
deriving DecidableEq, Repr

/-- Itinerary.get_route_pattern: the segment origins followed by the last
segment destination, joined by arrows. -/
def get_route_pattern (it : Itinerary) : String :=
  let base := it.segments.map FlightSegment.from_airport
  let airports := match it.segments.getLast? with
    | some last => base ++ [last.to_airport]
    | none => base
  String.intercalate " → " airports

/-- SearchEngine.korean_airports (fixed home-country set). -/
def KOREAN_AIRPORTS : List String := ["ICN", "GMP", "PUS", "CJU"]

/-- SearchEngine.japanese_airports (fixed destination-country set). -/
def JAPANESE_AIRPORTS : List String := ["NRT", "HND", "KIX", "CTS", "FUK", "OKA", "NGO", "ITM"]

/-- SearchEngine._is_international_route: Korea to Japan or Japan to Korea. -/
def is_international_route (from_airport to_airport : String) : Bool :=
  let f := strUpper from_airport
  let t := strUpper to_airport
  (decide (f ∈ KOREAN_AIRPORTS) && decide (t ∈ JAPANESE_AIRPORTS))
    || (decide (f ∈ JAPANESE_AIRPORTS) && decide (t ∈ KOREAN_AIRPORTS))

/-- Python `request.trip_nights or 3`: None and 0 are falsy. -/
def effective_trip_nights (request : SearchRequest) : Int :=
  match request.trip_nights with
  | none => 3
  | some n => if n = 0 then 3 else n

/-- Distinct (from, to) leg pairs appearing in any template (the Python set,
modelled with first-occurrence order). -/
def needed_segments_list (templates : List (List String)) : List (String × String) :=
  (templates.flatMap fun template =>
    (consecutivePairs template).map fun (p : String × String) =>
      (strUpper p.1, strUpper p.2)).dedup

/-- SearchEngine._populate_graph: fetch every needed (leg, date) combination
(dates capped at 7) from the provider matching its classification and ingest
every successful segment.  The cache is modelled absent (`none`), the
supported graceful-degradation mode of CacheManager; a failed fetch is a
`none` from the oracle and is simply skipped. -/
def populate_graph (amadeus airlabs : String → String → Int → Option FlightSegment)
    (request : SearchRequest) (templates : List (List String)) (g : FlightGraph) :
    FlightGraph :=
  let needed := needed_segments_list templates
  let dates := (get_date_range request.start_date request.end_date).take 7
  let results := needed.flatMap fun (p : String × String) =>
    dates.map fun d =>
      if is_international_route p.1 p.2 then
        (fetch_international_segment amadeus none p.1 p.2 d).1
      else
        (fetch_domestic_segment airlabs none p.1 p.2 d).1
  g.add_segments (results.filterMap id)

/-- SearchEngine._get_direct_cost: outbound plus inbound direct fetch, or
nothing when either is missing. -/
def get_direct_cost (amadeus : String → String → Int → Option FlightSegment)
    (request : SearchRequest) : Option Int :=
  let dep := strUpper request.departure
  let dest := strUpper request.destination
  let outbound := (fetch_international_segment amadeus none dep dest request.start_date).1
  let return_date := calculate_return_date request.start_date (effective_trip_nights request)
  let inbound := (fetch_international_segment amadeus none dest dep return_date).1
  match outbound, inbound with
  | some o, some i => some (o.price + i.price)
  | _, _ => none

/-- SearchEngine._create_direct_response: empty segment list, fixed pattern
string, never cheaper than direct.  Python `direct_cost or 0` agrees with
`getD 0` (None and 0 both give 0). -/
def create_direct_response (amadeus : String → String → Int → Option FlightSegment)
    (request : SearchRequest) : SearchResponse :=
  let direct_cost := get_direct_cost amadeus request
  let dep := strUpper request.departure
  let dest := strUpper request.destination
  { total_cost := direct_cost.getD 0
    segments := []
    route_pattern := dep ++ " → " ++ dest ++ " → " ++ dep
    cheaper_than_direct := false
    direct_cost := direct_cost }

/-- SearchEngine.search: the full pipeline.  The engine state at request
time is `g0` (its entry/exit candidate lists may have been changed by an
earlier request; its stored segments are cleared first, as in the source).
The final defensive filter keeps segments with both airport codes non-empty;
the `seg` and `seg.date` truthiness tests of the source are always true in
the model (a list element is never None and a date object is always truthy). -/
def search (amadeus airlabs : String → String → Int → Option FlightSegment)
    (g0 : FlightGraph) (request : SearchRequest) : SearchResponse :=
  let dep := strUpper request.departure
  let dest := strUpper request.destination
  let g := g0.clear
  let templates1 := generate_templates g dep dest true
  let g1 := populate_graph amadeus airlabs request templates1 g
  let g2 := g1.refresh_entry_exit_from_graph KOREAN_AIRPORTS JAPANESE_AIRPORTS
  let templates2 := generate_templates g2 dep dest true
  let candidate_pairs := (get_departure_return_pairs request.start_date request.end_date
    (effective_trip_nights request)).take 5
  let itineraries := templates2.flatMap fun template =>
    if validate_template template (some dest) && !(expand_template g2 template none).isEmpty
    then
      candidate_pairs.filterMap fun (pr : Int × Int) =>
        match build_itinerary_from_template g2 template pr.1 pr.2 dest false true with
        | some it => some it
        | none => build_itinerary_from_template g2 template pr.1 pr.2 dest false false
    else []
  match find_cheapest_itinerary itineraries with
  | none => create_direct_response amadeus request
  | some cheapest =>
    let direct_cost := get_direct_cost amadeus request
    let cheaper_than_direct := compare_with_direct cheapest direct_cost
    let valid_segments := cheapest.segments.filter fun s =>
      !(s.from_airport == "") && !(s.to_airport == "")
    if valid_segments.isEmpty then create_direct_response amadeus request
    else
      { total_cost := cheapest.total_cost
        segments := valid_segments
        route_pattern := get_route_pattern cheapest
        cheaper_than_direct := cheaper_than_direct
        direct_cost := direct_cost }

/-- Date required by the claimed cursor rule at each leg position (stated
from the spec, to compare with what the assembler produces): the cursor
starts at the departure date, jumps to the return date after the leg that
arrives at the final destination, and otherwise holds on same-day transfer
or advances by one day. -/
def cursorDates (final_destination : String) (return_date : Int)
    (allow_same_day_transfer : Bool) : List (String × String) → Int → List Int
  | [], _ => []
  | p :: rest, current_date =>
    current_date :: cursorDates final_destination return_date allow_same_day_transfer rest
      (if strUpper p.2 == final_destination then return_date
       else if allow_same_day_transfer then current_date
       else current_date + 1)

/-- MAX_CONCURRENT_REQUESTS (src/backend/app/services/search_engine.py,
line 25): size of the counting permit pool. -/
def MAX_CONCURRENT_REQUESTS : Nat := 20

/-- Lifecycle of one (leg, date) fetch task of _populate_graph: created by
gather but not yet holding a permit, holding a permit while its fetch is
pending, or completed (permit returned). -/
inductive FetchTaskState where
  | notStarted
  | running
  | finished
deriving DecidableEq, Repr

/-- Modelled from the spec: the event-loop state of one _populate_graph
batch.  The asyncio runtime and its Semaphore are outside the repository;
the spec describes the limiter as a counting permit pool, so the state is
the per-task lifecycle plus the permit counter, initialised to
MAX_CONCURRENT_REQUESTS as in SearchEngine.__init__. -/
structure LimiterState where
  tasks : List FetchTaskState
  permits : Nat
deriving DecidableEq, Repr

/-- Initial state of a batch of n fetch tasks (n is however many (leg, date)
combinations the request needs). -/
def initLimiterState (n : Nat) : LimiterState :=
  { tasks := List.replicate n FetchTaskState.notStarted
    permits := MAX_CONCURRENT_REQUESTS }

/-- Modelled from the spec: one cooperative scheduling step.  A task enters
its fetch only through `async with self.semaphore` (limited_fetch), which
requires an available permit and consumes it; leaving the block returns the
permit.  Completion order is unconstrained (any eligible task may step). -/
inductive LimiterStep : LimiterState → LimiterState → Prop where
  | acquire (s : LimiterState) (i : Nat)
      (h : s.tasks[i]? = some FetchTaskState.notStarted)
      (hp : 0 < s.permits) :
      LimiterStep s { tasks := s.tasks.set i FetchTaskState.running, permits := s.permits - 1 }
  | release (s : LimiterState) (i : Nat)
      (h : s.tasks[i]? = some FetchTaskState.running) :
      LimiterStep s { tasks := s.tasks.set i FetchTaskState.finished, permits := s.permits + 1 }

/-- States reachable by a batch of any size from its initial state. -/
inductive LimiterReachable : LimiterState → Prop where
  | init (n : Nat) : LimiterReachable (initLimiterState n)
  | step {s s' : LimiterState} : LimiterReachable s → LimiterStep s s' → LimiterReachable s'

/-- Number of fetches currently in flight. -/
def countRunning (tasks : List FetchTaskState) : Nat :=
  tasks.countP (· == FetchTaskState.running)

/-- Concrete outbound segment used by the witnesses below. -/
def exampleSegOut : FlightSegment :=
  { from_airport := "ICN", to_airport := "KIX", price := 82000
    provider := "Amadeus", date := 0 }

/-- Concrete inbound segment used by the witnesses below. -/
def exampleSegBack : FlightSegment :=
  { from_airport := "KIX", to_airport := "ICN", price := 85000
    provider := "Amadeus", date := 3 }

/-- Concrete two-edge graph used by the witnesses below. -/
def exampleGraph : FlightGraph :=
  FlightGraph.init.add_segments [exampleSegOut, exampleSegBack]

/-- Concrete direct round-trip template used by the witnesses below. -/
def exampleTemplate : List String := ["ICN", "KIX", "ICN"]

/-- The itinerary assembled from the example graph and template (departure
day 0, return day 3, destination KIX, strict date matching). -/
def exampleItinerary : Itinerary :=
  (build_itinerary_from_template exampleGraph exampleTemplate 0 3 "KIX" false true).getD
    { segments := [], total_cost := 0 }

theorem foldl_minByPrice_spec (l : List FlightSegment) :
    ∀ a : FlightSegment,
      l.foldl (fun acc x => if x.price < acc.price then x else acc) a ∈ a :: l ∧
      (l.foldl (fun acc x => if x.price < acc.price then x else acc) a).price ≤ a.price ∧
      ∀ x ∈ l, (l.foldl (fun acc x => if x.price < acc.price then x else acc) a).price ≤ x.price := by
  induction l with
  | nil => intro a; simp
  | cons b rest ih =>
    intro a
    simp only [List.foldl_cons]
    set pick := if b.price < a.price then b else a with hpick
    have hpick_mem : pick = b ∨ pick = a := by
      by_cases hb : b.price < a.price <;> simp [hpick, hb]
    have hpick_a : pick.price ≤ a.price := by
      by_cases hb : b.price < a.price <;> simp [hpick, hb]
      exact le_of_lt hb
    have hpick_b : pick.price ≤ b.price := by
      by_cases hb : b.price < a.price <;> simp [hpick, hb]
      exact le_of_not_lt hb
    obtain ⟨hmem, hle, hall⟩ := ih pick
    refine ⟨?_, le_trans hle hpick_a, ?_⟩
    · rcases List.mem_cons.1 hmem with hm | hm
      · rw [hm]
        rcases hpick_mem with hp | hp <;> rw [hp] <;> simp
      · simp [List.mem_cons, hm]
    · intro x hx
      rcases List.mem_cons.1 hx with rfl | hx
      · exact le_trans hle hpick_b
      · exact hall x hx

theorem minByPrice_eq_none_iff (l : List FlightSegment) : minByPrice l = none ↔ l = [] := by
  cases l <;> simp [minByPrice]

theorem minByPrice_spec (l : List FlightSegment) (s : FlightSegment)
    (h : minByPrice l = some s) : s ∈ l ∧ ∀ x ∈ l, s.price ≤ x.price := by
  cases l with
  | nil => simp [minByPrice] at h
  | cons a rest =>
    simp only [minByPrice, Option.some.injEq] at h
    obtain ⟨hmem, hle, hall⟩ := foldl_minByPrice_spec rest a
    subst h
    refine ⟨hmem, ?_⟩
    intro x hx
    rcases List.mem_cons.1 hx with rfl | hx
    · exact hle
    · exact hall x hx

theorem mem_get_segments (g : FlightGraph) (from_airport to_airport : String)
    (date_filter : Option Int) (s : FlightSegment) :
    s ∈ g.get_segments from_airport to_airport date_filter ↔
      s ∈ g.segments ∧ strUpper s.from_airport = strUpper from_airport ∧
        strUpper s.to_airport = strUpper to_airport ∧
        ∀ d, date_filter = some d → s.date = d := by
  cases date_filter <;>
    simp [FlightGraph.get_segments, List.mem_filter, and_assoc]
  all_goals tauto

/-- Claim C1: for every price graph, origin, destination and optional date,
get_segments returns exactly the stored segments matching the (uppercased)
origin, destination and, when supplied, the date; get_cheapest_segment
returns nothing exactly when no such segment exists and otherwise a
minimum-price segment among them; with no date supplied the minimum ranges
over all dates for the pair, with no implicit date filtering. -/
theorem get_cheapest_segment_spec (g : FlightGraph) (from_airport to_airport : String)
    (date_filter : Option Int) :
    (∀ s, s ∈ g.get_segments from_airport to_airport date_filter ↔
      s ∈ g.segments ∧ strUpper s.from_airport = strUpper from_airport ∧
        strUpper s.to_airport = strUpper to_airport ∧
        ∀ d, date_filter = some d → s.date = d) ∧
    (g.get_cheapest_segment from_airport to_airport date_filter = none ↔
      g.get_segments from_airport to_airport date_filter = []) ∧
    (∀ s, g.get_cheapest_segment from_airport to_airport date_filter = some s →
      s ∈ g.get_segments from_airport to_airport date_filter ∧
      ∀ x ∈ g.get_segments from_airport to_airport date_filter, s.price ≤ x.price) := by
  refine ⟨mem_get_segments g from_airport to_airport date_filter, ?_, ?_⟩
  · exact minByPrice_eq_none_iff _
  · intro s hs
    exact minByPrice_spec _ s hs

theorem get_cheapest_segment_spec_witness :
    exampleGraph.get_cheapest_segment "icn" "kix" none = some exampleSegOut ∧
    exampleSegOut ∈ exampleGraph.get_segments "icn" "kix" none ∧
    ∀ x ∈ exampleGraph.get_segments "icn" "kix" none, exampleSegOut.price ≤ x.price := by
  have h := (get_cheapest_segment_spec exampleGraph "icn" "kix" none).2.2 exampleSegOut (by decide)
  exact ⟨by decide, h.1, h.2⟩

/-- Claim C10: get_cheapest_segment_strict is definitionally the date-filtered
get_cheapest_segment query (the source differs only in a debug log). -/
theorem get_cheapest_segment_strict_spec (g : FlightGraph)
    (from_airport to_airport : String) (flight_date : Int) :
    g.get_cheapest_segment_strict from_airport to_airport flight_date =
      g.get_cheapest_segment from_airport to_airport (some flight_date) := rfl

theorem compare_with_direct_claim_cex :
    compare_with_direct { segments := [], total_cost := 5 } (some 0) = true ∧
    ¬ ((some (0 : Int) = none) ∨ ((5 : Int) < 0)) := by decide

/-- Claim C7, amended: compare_with_direct returns true exactly when no direct
cost is known, the direct cost is zero (Python falsiness of 0), or the
itinerary total cost is strictly below the direct cost. -/
theorem compare_with_direct_spec (itinerary : Itinerary) (direct_cost : Option Int) :
    compare_with_direct itinerary direct_cost = true ↔
      direct_cost = none ∨ direct_cost = some 0 ∨
        ∃ c, direct_cost = some c ∧ itinerary.total_cost < c := by
  cases direct_cost with
  | none => simp [compare_with_direct]
  | some c =>
    by_cases hc : c = 0
    · subst hc; simp [compare_with_direct]
    · simp [compare_with_direct, hc]

theorem compare_with_direct_spec_witness :
    compare_with_direct { segments := [], total_cost := 100 } (some 200) = true :=
  (compare_with_direct_spec _ _).2 (Or.inr (Or.inr ⟨200, rfl, by decide⟩))

theorem dedup_length_eq_length_iff {α : Type} [DecidableEq α] (l : List α) :
    l.dedup.length = l.length ↔ l.Nodup := by
  constructor
  · intro h
    have hsub := List.dedup_sublist l
    rw [← hsub.eq_of_length h]
    exact List.nodup_dedup l
  · intro h
    rw [List.dedup_eq_self.2 h]

theorem validate_template_eq_true_iff (template : List String) (destination : Option String) :
    validate_template template destination = true ↔
      3 ≤ template.length ∧
      strUpper (template.headD "") = strUpper (template.getLastD "") ∧
      ((template.drop 1).dropLast.map strUpper).Nodup ∧
      (template.drop 1).dropLast.length ≤ 4 ∧
      (∀ d, destination = some d → d ≠ "" →
        strUpper d ∈ (template.drop 1).dropLast.map strUpper) := by
  unfold validate_template
  by_cases h1 : template.length < 3
  · simp only [if_pos h1, Bool.false_eq_true, false_iff]
    intro hcl
    omega
  · rw [if_neg h1]
    by_cases h2 : strUpper (template.headD "") ≠ strUpper (template.getLastD "")
    · simp only [if_pos h2, Bool.false_eq_true, false_iff]
      intro hcl
      exact h2 hcl.2.1
    · rw [if_neg h2]
      push_neg at h2
      by_cases h3 : ((template.drop 1).dropLast.map strUpper).length ≠
          ((template.drop 1).dropLast.map strUpper).dedup.length
      · simp only [if_pos h3, Bool.false_eq_true, false_iff]
        intro hcl
        exact h3 ((dedup_length_eq_length_iff _).2 hcl.2.2.1).symm
      · rw [if_neg h3]
        push_neg at h3
        have hnodup : ((template.drop 1).dropLast.map strUpper).Nodup :=
          (dedup_length_eq_length_iff _).1 h3.symm
        by_cases h4 : ((template.drop 1).dropLast.map strUpper).length > 4
        · simp only [if_pos h4, Bool.false_eq_true, false_iff]
          intro hcl
          rw [List.length_map] at h4
          omega
        · rw [if_neg h4]
          rw [List.length_map] at h4
          push_neg at h4
          cases destination with
          | none =>
            dsimp only
            simp only [true_iff]
            exact ⟨by omega, h2, hnodup, h4, by simp⟩
          | some d =>
            dsimp only
            by_cases hd : d = ""
            · subst hd
              rw [if_pos rfl]
              constructor
              · intro _
                refine ⟨by omega, h2, hnodup, h4, ?_⟩
                intro d2 hd2 hne
                cases hd2
                exact absurd rfl hne
              · intro _
                rfl
            · rw [if_neg hd]
              simp only [decide_eq_true_eq]
              constructor
              · intro hmem
                refine ⟨by omega, h2, hnodup, h4, ?_⟩
                intro d2 hd2 _
                cases hd2
                exact hmem
              · intro hcl
                exact hcl.2.2.2.2 d rfl hd

theorem validate_template_empty_dest_cex :
    validate_template ["A", "B", "A"] (some "") = true ∧
    strUpper "" ∉ (((["A", "B", "A"] : List String).drop 1).dropLast.map strUpper) := by
  decide

/-- Claim C3, amended: validate_template accepts shape-D templates (6 stops, 4
interior stops, no repeated interior airport, matching endpoints,
destination among the interior stops) and returns false whenever the
template has fewer than 3 stops, its first and last airports differ, an
interior airport repeats, the interior-stop count exceeds 4, or a NON-EMPTY
destination is supplied that is not among the interior stops (an
empty-string destination is falsy in Python and skips the check). -/
theorem validate_template_spec (template : List String) (destination : Option String) :
    (template.length < 3 → validate_template template destination = false) ∧
    (strUpper (template.headD "") ≠ strUpper (template.getLastD "") →
      validate_template template destination = false) ∧
    (¬ ((template.drop 1).dropLast.map strUpper).Nodup →
      validate_template template destination = false) ∧
    ((template.drop 1).dropLast.length > 4 →
      validate_template template destination = false) ∧
    (∀ d, destination = some d → d ≠ "" →
      strUpper d ∉ (template.drop 1).dropLast.map strUpper →
      validate_template template destination = false) ∧
    (template.length = 6 →
      strUpper (template.headD "") = strUpper (template.getLastD "") →
      ((template.drop 1).dropLast.map strUpper).Nodup →
      (∀ d, destination = some d → strUpper d ∈ (template.drop 1).dropLast.map strUpper) →
      validate_template template destination = true) := by
  refine ⟨?_, ?_, ?_, ?_, ?_, ?_⟩
  · intro h
    apply Bool.eq_false_iff.2
    intro htrue
    have hcl := (validate_template_eq_true_iff template destination).1 htrue
    omega
  · intro h
    apply Bool.eq_false_iff.2
    intro htrue
    exact h ((validate_template_eq_true_iff template destination).1 htrue).2.1
  · intro h
    apply Bool.eq_false_iff.2
    intro htrue
    exact h ((validate_template_eq_true_iff template destination).1 htrue).2.2.1
  · intro h
    apply Bool.eq_false_iff.2
    intro htrue
    have hcl := (validate_template_eq_true_iff template destination).1 htrue
    have := hcl.2.2.2.1
    omega
  · intro d hd hne hnotmem
    apply Bool.eq_false_iff.2
    intro htrue
    exact hnotmem (((validate_template_eq_true_iff template destination).1 htrue).2.2.2.2 d hd hne)
  · intro hlen heq hnodup hdest
    apply (validate_template_eq_true_iff template destination).2
    refine ⟨by omega, heq, hnodup, ?_, ?_⟩
    · simp only [List.length_dropLast, List.length_drop, hlen]
      omega
    · intro d hd _
      exact hdest d hd

theorem validate_template_spec_witness :
    validate_template ["ICN", "NRT", "KIX", "CTS", "FUK", "ICN"] (some "CTS") = true := by
  apply (validate_template_spec ["ICN", "NRT", "KIX", "CTS", "FUK", "ICN"] (some "CTS")).2.2.2.2.2
  · decide
  · decide
  · decide
  · intro d hd
    cases hd
    decide

theorem get_cheapest_segment_mem (g : FlightGraph) (from_airport to_airport : String)
    (date_filter : Option Int) (s : FlightSegment)
    (h : g.get_cheapest_segment from_airport to_airport date_filter = some s) :
    s ∈ g.segments :=
  ((mem_get_segments g from_airport to_airport date_filter s).1 (minByPrice_spec _ s h).1).1

theorem buildSegments_spec (g : FlightGraph) (final_destination : String)
    (return_date : Int) (allow_same_day_transfer strict_date_match : Bool) :
    ∀ (pairs : List (String × String)) (current : Int) (segs : List FlightSegment),
      buildSegments g final_destination return_date allow_same_day_transfer
        strict_date_match pairs current = some segs →
      segs.map FlightSegment.date =
        cursorDates final_destination return_date allow_same_day_transfer pairs current ∧
      ∀ s ∈ segs, ∃ s0 ∈ g.segments, s = { s0 with date := s.date } := by
  intro pairs
  induction pairs with
  | nil =>
    intro current segs h
    simp only [buildSegments, Option.some.injEq] at h
    subst h
    simp [cursorDates]
  | cons p rest ih =>
    intro current segs h
    simp only [buildSegments] at h
    split at h
    · exact absurd h (by simp)
    · rename_i segment hseg
      split at h
      · exact absurd h (by simp)
      · rename_i tail htail
        rw [Option.some.injEq] at h
        subst h
        have hmem : segment ∈ g.segments := by
          cases strict_date_match with
          | true =>
            rw [if_pos rfl] at hseg
            exact get_cheapest_segment_mem g _ _ _ segment hseg
          | false =>
            rw [if_neg (by simp)] at hseg
            split at hseg
            · rename_i s1 hs1
              rw [Option.some.injEq] at hseg
              subst hseg
              exact get_cheapest_segment_mem g _ _ _ s1 hs1
            · exact get_cheapest_segment_mem g _ _ _ segment hseg
        obtain ⟨ihdates, ihclone⟩ := ih _ _ htail
        constructor
        · simp only [List.map_cons, cursorDates]
          rw [ihdates]
        · intro s hs
          rcases List.mem_cons.1 hs with rfl | hs
          · exact ⟨segment, hmem, rfl⟩
          · exact ihclone s hs

/-- Claim C2: under strict date matching, any itinerary returned by
build_itinerary_from_template has each segment dated exactly at the cursor
date for its position: the cursor starts at the departure date, jumps to the
return date after the leg arriving at the final destination, and otherwise
holds on same-day transfer or advances one day. -/
theorem build_itinerary_strict_dates (g : FlightGraph) (template : List String)
    (departure_date return_date : Int) (destination : String)
    (allow_same_day_transfer : Bool) (it : Itinerary)
    (h : build_itinerary_from_template g template departure_date return_date destination
      allow_same_day_transfer true = some it) :
    it.segments.map FlightSegment.date =
      cursorDates (strUpper destination) return_date allow_same_day_transfer
        (consecutivePairs template) departure_date := by
  rw [build_itinerary_from_template] at h
  split at h
  · exact absurd h (by simp)
  · split at h
    · exact absurd h (by simp)
    · rename_i segs hsegs
      rw [Option.some.injEq] at h
      subst h
      exact (buildSegments_spec g (strUpper destination) return_date
        allow_same_day_transfer true (consecutivePairs template) departure_date segs hsegs).1

theorem build_itinerary_strict_dates_witness :
    build_itinerary_from_template exampleGraph exampleTemplate 0 3 "KIX" false true =
      some exampleItinerary ∧
    exampleItinerary.segments.map FlightSegment.date =
      cursorDates (strUpper "KIX") 3 false (consecutivePairs exampleTemplate) 0 :=
  ⟨by decide,
   build_itinerary_strict_dates exampleGraph exampleTemplate 0 3 "KIX" false
     exampleItinerary (by decide)⟩

/-- Claim C8: build_itinerary_from_template is deterministic (two calls with
identical arguments on the same graph agree on total cost and per-segment
prices) and never alters a stored segment: every returned segment is a copy
of some stored segment with only its date overridden. -/
theorem build_itinerary_pure_and_clones (g : FlightGraph) (template : List String)
    (departure_date return_date : Int) (destination : String)
    (allow_same_day_transfer strict_date_match : Bool) :
    (∀ it1 it2,
      build_itinerary_from_template g template departure_date return_date destination
        allow_same_day_transfer strict_date_match = some it1 →
      build_itinerary_from_template g template departure_date return_date destination
        allow_same_day_transfer strict_date_match = some it2 →
      it1.total_cost = it2.total_cost ∧
      it1.segments.map FlightSegment.price = it2.segments.map FlightSegment.price) ∧
    (∀ it,
      build_itinerary_from_template g template departure_date return_date destination
        allow_same_day_transfer strict_date_match = some it →
      ∀ s ∈ it.segments, ∃ s0 ∈ g.segments, s = { s0 with date := s.date }) := by
  constructor
  · intro it1 it2 h1 h2
    cases Option.some.inj (h1.symm.trans h2)
    exact ⟨rfl, rfl⟩
  · intro it h
    rw [build_itinerary_from_template] at h
    split at h
    · exact absurd h (by simp)
    · split at h
      · exact absurd h (by simp)
      · rename_i segs hsegs
        rw [Option.some.injEq] at h
        subst h
        exact (buildSegments_spec g (strUpper destination) return_date
          allow_same_day_transfer strict_date_match
          (consecutivePairs template) departure_date segs hsegs).2

theorem build_itinerary_pure_and_clones_witness :
    build_itinerary_from_template exampleGraph exampleTemplate 0 3 "KIX" false true =
      some exampleItinerary ∧
    ∀ s ∈ exampleItinerary.segments,
      ∃ s0 ∈ exampleGraph.segments, s = { s0 with date := s.date } :=
  ⟨by decide,
   (build_itinerary_pure_and_clones exampleGraph exampleTemplate 0 3 "KIX" false true).2
     exampleItinerary (by decide)⟩

theorem mem_insertSorted (a x : String) (l : List String) :
    x ∈ insertSorted a l ↔ x = a ∨ x ∈ l := by
  induction l with
  | nil => simp [insertSorted]
  | cons b r ih =>
    simp only [insertSorted]
    split_ifs with h
    · simp [List.mem_cons]
    · simp only [List.mem_cons, ih]
      tauto

theorem mem_sortStrings (x : String) (l : List String) : x ∈ sortStrings l ↔ x ∈ l := by
  unfold sortStrings
  induction l with
  | nil => simp
  | cons b r ih => simp [mem_insertSorted, ih]

theorem refresh_entries_list_mem (g : FlightGraph) (korean japanese : List String) (a : String) :
    a ∈ ((g.get_all_edges.filter fun e =>
        decide (e.1 ∈ korean ∧ e.2 ∈ japanese)).map Prod.snd).dedup ↔
      a ∈ japanese ∧ ∃ f ∈ korean, (f, a) ∈ g.get_all_edges := by
  simp only [List.mem_dedup, List.mem_map, List.mem_filter, decide_eq_true_eq]
  constructor
  · rintro ⟨e, ⟨he, hk, hj⟩, rfl⟩
    exact ⟨hj, e.1, hk, by simpa using he⟩
  · rintro ⟨hj, f, hk, he⟩
    exact ⟨(f, a), ⟨he, hk, hj⟩, rfl⟩

theorem refresh_exits_list_mem (g : FlightGraph) (korean japanese : List String) (a : String) :
    a ∈ ((g.get_all_edges.filter fun e =>
        decide (e.1 ∈ japanese ∧ e.2 ∈ korean)).map Prod.fst).dedup ↔
      a ∈ japanese ∧ ∃ t ∈ korean, (a, t) ∈ g.get_all_edges := by
  simp only [List.mem_dedup, List.mem_map, List.mem_filter, decide_eq_true_eq]
  constructor
  · rintro ⟨e, ⟨he, hj, hk⟩, rfl⟩
    exact ⟨hj, e.2, hk, by simpa using he⟩
  · rintro ⟨hj, t, hk, he⟩
    exact ⟨(a, t), ⟨he, hj, hk⟩, rfl⟩

/-- Claim C6: refresh_entry_exit_from_graph sets the entry candidates to exactly
the destination-country airports reached by an existing edge from a
home-country airport and the exit candidates to exactly the
destination-country airports with an existing edge back to a home-country
airport; when no qualifying edge exists for a candidate set that set keeps
its previous value, and a non-empty candidate list is never emptied. -/
theorem refresh_entry_exit_spec (g : FlightGraph) (korean_airports japanese_airports : List String) :
    ((∃ e ∈ g.get_all_edges, e.1 ∈ korean_airports ∧ e.2 ∈ japanese_airports) →
      ∀ a, a ∈ (g.refresh_entry_exit_from_graph korean_airports japanese_airports).entry_airports ↔
        a ∈ japanese_airports ∧ ∃ f ∈ korean_airports, (f, a) ∈ g.get_all_edges) ∧
    ((¬ ∃ e ∈ g.get_all_edges, e.1 ∈ korean_airports ∧ e.2 ∈ japanese_airports) →
      (g.refresh_entry_exit_from_graph korean_airports japanese_airports).entry_airports =
        g.entry_airports) ∧
    ((∃ e ∈ g.get_all_edges, e.1 ∈ japanese_airports ∧ e.2 ∈ korean_airports) →
      ∀ a, a ∈ (g.refresh_entry_exit_from_graph korean_airports japanese_airports).exit_airports ↔
        a ∈ japanese_airports ∧ ∃ t ∈ korean_airports, (a, t) ∈ g.get_all_edges) ∧
    ((¬ ∃ e ∈ g.get_all_edges, e.1 ∈ japanese_airports ∧ e.2 ∈ korean_airports) →
      (g.refresh_entry_exit_from_graph korean_airports japanese_airports).exit_airports =
        g.exit_airports) ∧
    (g.entry_airports ≠ [] →
      (g.refresh_entry_exit_from_graph korean_airports japanese_airports).entry_airports ≠ []) ∧
    (g.exit_airports ≠ [] →
      (g.refresh_entry_exit_from_graph korean_airports japanese_airports).exit_airports ≠ []) := by
  refine ⟨?_, ?_, ?_, ?_, ?_, ?_⟩
  · intro hex a
    unfold FlightGraph.refresh_entry_exit_from_graph
    dsimp only
    split_ifs with hempty
    · exfalso
      obtain ⟨e, he, hk, hj⟩ := hex
      have hmem := (refresh_entries_list_mem g korean_airports japanese_airports e.2).2
        ⟨hj, e.1, hk, by simpa using he⟩
      rw [List.isEmpty_iff] at hempty
      rw [hempty] at hmem
      exact List.not_mem_nil _ hmem
    · rw [mem_sortStrings]
      exact refresh_entries_list_mem g korean_airports japanese_airports a
  · intro hnone
    unfold FlightGraph.refresh_entry_exit_from_graph
    dsimp only
    split_ifs with hempty
    · rfl
    · exfalso
      apply hempty
      rw [List.isEmpty_iff, List.eq_nil_iff_forall_not_mem]
      intro a ha
      obtain ⟨hj, f, hk, he⟩ :=
        (refresh_entries_list_mem g korean_airports japanese_airports a).1 ha
      exact hnone ⟨(f, a), he, hk, hj⟩
  · intro hex a
    unfold FlightGraph.refresh_entry_exit_from_graph
    dsimp only
    split_ifs with hempty
    · exfalso
      obtain ⟨e, he, hj, hk⟩ := hex
      have hmem := (refresh_exits_list_mem g korean_airports japanese_airports e.1).2
        ⟨hj, e.2, hk, by simpa using he⟩
      rw [List.isEmpty_iff] at hempty
      rw [hempty] at hmem
      exact List.not_mem_nil _ hmem
    · rw [mem_sortStrings]
      exact refresh_exits_list_mem g korean_airports japanese_airports a
  · intro hnone
    unfold FlightGraph.refresh_entry_exit_from_graph
    dsimp only
    split_ifs with hempty
    · rfl
    · exfalso
      apply hempty
      rw [List.isEmpty_iff, List.eq_nil_iff_forall_not_mem]
      intro a ha
      obtain ⟨hj, t, hk, he⟩ :=
        (refresh_exits_list_mem g korean_airports japanese_airports a).1 ha
      exact hnone ⟨(a, t), he, hj, hk⟩
  · intro hne
    unfold FlightGraph.refresh_entry_exit_from_graph
    dsimp only
    split_ifs with hempty
    · exact hne
    · have hlist : ¬ ((g.get_all_edges.filter fun e =>
          decide (e.1 ∈ korean_airports ∧ e.2 ∈ japanese_airports)).map Prod.snd).dedup = [] := by
        intro hnil
        apply hempty
        rw [List.isEmpty_iff]
        exact hnil
      obtain ⟨x, hx⟩ := List.exists_mem_of_ne_nil _ hlist
      exact List.ne_nil_of_mem ((mem_sortStrings x _).2 hx)
  · intro hne
    unfold FlightGraph.refresh_entry_exit_from_graph
    dsimp only
    split_ifs with hempty
    · exact hne
    · have hlist : ¬ ((g.get_all_edges.filter fun e =>
          decide (e.1 ∈ japanese_airports ∧ e.2 ∈ korean_airports)).map Prod.fst).dedup = [] := by
        intro hnil
        apply hempty
        rw [List.isEmpty_iff]
        exact hnil
      obtain ⟨x, hx⟩ := List.exists_mem_of_ne_nil _ hlist
      exact List.ne_nil_of_mem ((mem_sortStrings x _).2 hx)

theorem refresh_entry_exit_spec_witness :
    (exampleGraph.refresh_entry_exit_from_graph ["ICN"] ["KIX"]).entry_airports = ["KIX"] ∧
    ("KIX" ∈ (exampleGraph.refresh_entry_exit_from_graph ["ICN"] ["KIX"]).entry_airports ↔
      "KIX" ∈ ["KIX"] ∧ ∃ f ∈ ["ICN"], (f, "KIX") ∈ exampleGraph.get_all_edges) := by
  constructor
  · decide
  · exact (refresh_entry_exit_spec exampleGraph ["ICN"] ["KIX"]).1
      ⟨("ICN", "KIX"), by decide, by decide, by decide⟩ "KIX"

theorem fetch_ttl_claim_cex :
    (fetch_international_segment (fun _ _ _ => some exampleSegOut) (some []) "ICN" "KIX" 0).2 =
      some [("amadeus:date:0:from_airport:ICN:to_airport:KIX",
        serialize_segment exampleSegOut, 10800)] ∧
    (fetch_domestic_segment (fun _ _ _ => some exampleSegOut) (some []) "ICN" "KIX" 0).2 =
      some [("airlabs:date:0:from_airport:ICN:to_airport:KIX",
        serialize_segment exampleSegOut, 21600)] ∧
    ¬ ((10800 : Nat) > 21600) := by
  refine ⟨rfl, rfl, by decide⟩

/-- Claim C4, amended: on a cache miss, every successful provider fetch stores
the serialized segment (date in string form) under its cache key with a
TTL; the TTL used when storing a DOMESTIC-route fetch (21600 s) is strictly
longer than the TTL used when storing an international-route fetch
(10800 s). -/
theorem fetch_ttl_spec (amadeus airlabs : String → String → Int → Option FlightSegment)
    (c : CacheStore) (from_airport to_airport : String) (departure_date : Int)
    (segi segd : FlightSegment)
    (hi : amadeus (strUpper from_airport) (strUpper to_airport) departure_date = some segi)
    (hd : airlabs (strUpper from_airport) (strUpper to_airport) departure_date = some segd)
    (hmiss_i : cache_get c (generate_key "amadeus" (strUpper from_airport)
      (strUpper to_airport) (format_date_for_api departure_date)) = none)
    (hmiss_d : cache_get c (generate_key "airlabs" (strUpper from_airport)
      (strUpper to_airport) (format_date_for_api departure_date)) = none) :
    (fetch_international_segment amadeus c from_airport to_airport departure_date).2 =
      cache_set c (generate_key "amadeus" (strUpper from_airport) (strUpper to_airport)
        (format_date_for_api departure_date)) (serialize_segment segi) 10800 ∧
    (fetch_domestic_segment airlabs c from_airport to_airport departure_date).2 =
      cache_set c (generate_key "airlabs" (strUpper from_airport) (strUpper to_airport)
        (format_date_for_api departure_date)) (serialize_segment segd) 21600 ∧
    (10800 : Nat) < 21600 := by
  refine ⟨?_, ?_, by decide⟩
  · unfold fetch_international_segment fetch_segment_cached
    dsimp only
    rw [hmiss_i, hi]
  · unfold fetch_domestic_segment fetch_segment_cached
    dsimp only
    rw [hmiss_d, hd]

theorem fetch_ttl_spec_witness :
    (fetch_international_segment (fun _ _ _ => some exampleSegOut) (some [])
        "icn" "kix" 0).2 =
      cache_set (some []) (generate_key "amadeus" (strUpper "icn") (strUpper "kix")
        (format_date_for_api 0)) (serialize_segment exampleSegOut) 10800 ∧
    (fetch_domestic_segment (fun _ _ _ => some exampleSegOut) (some [])
        "icn" "kix" 0).2 =
      cache_set (some []) (generate_key "airlabs" (strUpper "icn") (strUpper "kix")
        (format_date_for_api 0)) (serialize_segment exampleSegOut) 21600 ∧
    (10800 : Nat) < 21600 :=
  fetch_ttl_spec (fun _ _ _ => some exampleSegOut) (fun _ _ _ => some exampleSegOut)
    (some []) "icn" "kix" 0 exampleSegOut exampleSegOut rfl rfl rfl rfl

/-- Claim C5: every search response either carries a non-empty segment list in
which every segment has both airport codes non-empty (its date, a modelled
day number, is always present), or it is the direct-only fallback: empty
segment list, cheaper_than_direct false, and the fixed
"dep → dest → dep" route pattern; in particular an emptied defensive
filter yields the direct-only response, never a zero-segment itinerary. -/
theorem search_response_spec (amadeus airlabs : String → String → Int → Option FlightSegment)
    (g0 : FlightGraph) (request : SearchRequest) :
    ((search amadeus airlabs g0 request).segments ≠ [] ∧
      ∀ s ∈ (search amadeus airlabs g0 request).segments,
        s.from_airport ≠ "" ∧ s.to_airport ≠ "") ∨
    ((search amadeus airlabs g0 request).segments = [] ∧
      (search amadeus airlabs g0 request).cheaper_than_direct = false ∧
      (search amadeus airlabs g0 request).route_pattern =
        strUpper request.departure ++ " → " ++ strUpper request.destination ++ " → " ++
          strUpper request.departure) := by
  unfold search
  dsimp only
  split
  · right
    unfold create_direct_response
    dsimp only
    exact ⟨rfl, rfl, rfl⟩
  · rename_i cheapest hch
    split_ifs with hempty
    · right
      unfold create_direct_response
      dsimp only
      exact ⟨rfl, rfl, rfl⟩
    · left
      dsimp only
      constructor
      · intro hnil
        rw [hnil] at hempty
        exact hempty rfl
      · intro s hs
        have h2 := (List.mem_filter.1 hs).2
        simp only [Bool.and_eq_true, Bool.not_eq_true', beq_eq_false_iff_ne] at h2
        exact h2

set_option maxRecDepth 20000 in
theorem search_response_spec_witness :
    (search (fun _ _ _ => none) (fun _ _ _ => none) FlightGraph.init
        { departure := "ICN", destination := "CTS", start_date := 0, end_date := 0 }).segments
      = [] ∧
    (search (fun _ _ _ => none) (fun _ _ _ => none) FlightGraph.init
        { departure := "ICN", destination := "CTS", start_date := 0, end_date := 0 }).cheaper_than_direct
      = false ∧
    (search (fun _ _ _ => none) (fun _ _ _ => none) FlightGraph.init
        { departure := "ICN", destination := "CTS", start_date := 0, end_date := 0 }).route_pattern
      = strUpper "ICN" ++ " → " ++ strUpper "CTS" ++ " → " ++ strUpper "ICN" := by
  have h := search_response_spec (fun _ _ _ => none) (fun _ _ _ => none) FlightGraph.init
    { departure := "ICN", destination := "CTS", start_date := 0, end_date := 0 }
  rcases h with ⟨hne, _⟩ | hdirect
  · exact absurd (by decide) hne
  · exact hdirect

theorem countP_set_add {α : Type} (p : α → Bool) (b : α) :
    ∀ (l : List α) (i : Nat) (a : α), l[i]? = some a →
      (l.set i b).countP p + (if p a then 1 else 0) =
        l.countP p + (if p b then 1 else 0) := by
  intro l
  induction l with
  | nil => intro i a h; simp at h
  | cons x xs ih =>
    intro i a h
    cases i with
    | zero =>
      simp only [List.getElem?_cons_zero, Option.some.injEq] at h
      subst h
      simp only [List.set_cons_zero, List.countP_cons]
      omega
    | succ n =>
      simp only [List.getElem?_cons_succ] at h
      have := ih n a h
      simp only [List.set_cons_succ, List.countP_cons]
      omega

theorem limiter_invariant {s : LimiterState} (h : LimiterReachable s) :
    countRunning s.tasks + s.permits = MAX_CONCURRENT_REQUESTS := by
  induction h with
  | init n =>
    unfold initLimiterState countRunning
    dsimp only
    have h0 : List.countP (fun x => x == FetchTaskState.running)
        (List.replicate n FetchTaskState.notStarted) = 0 := by
      apply List.countP_eq_zero.2
      intro a ha
      rw [List.eq_of_mem_replicate ha]
      decide
    rw [h0]
    omega
  | step hr hstep ih =>
    rename_i s1 s2
    cases hstep with
    | acquire i hi hp =>
      have hc := countP_set_add (fun x => x == FetchTaskState.running) FetchTaskState.running
        s1.tasks i FetchTaskState.notStarted hi
      unfold countRunning at *
      simp at hc
      dsimp only
      omega
    | release i hi =>
      have hc := countP_set_add (fun x => x == FetchTaskState.running) FetchTaskState.finished
        s1.tasks i FetchTaskState.running hi
      unfold countRunning at *
      simp at hc
      dsimp only
      omega

/-- Claim C9: in any reachable state of a fetch batch of any size (for example
the 200 (leg, date) fetches of a large request), at most
MAX_CONCURRENT_REQUESTS = 20 fetches hold a permit of the counting permit
pool simultaneously — every fetch runs inside the limiter. -/
theorem limiter_bounds_running (s : LimiterState) (h : LimiterReachable s) :
    countRunning s.tasks ≤ MAX_CONCURRENT_REQUESTS := by
  have := limiter_invariant h
  omega

theorem limiter_bounds_running_witness :
    countRunning (initLimiterState 200).tasks ≤ MAX_CONCURRENT_REQUESTS :=
  limiter_bounds_running (initLimiterState 200) (LimiterReachable.init 200)
